import Mathlib

/-!
Shallow embedding of the RAG pipeline of `rag_superduperdb.py` and the
UI glue of `ask_llm.py`.

External collaborators (HTTP via `requests`, PDF parsing via `fitz`,
the `SemanticChunker` text splitter, the embedding-similarity scores of
the vector store, and the `random` source) are modelled as components of
an environment record `Env`; the Python control flow of the repository's
own code is translated statement by statement.
-/

namespace RagSDDB

/-- An HTTP response as observed by `requests.get`: a status code and the
body bytes (`response.content`). -/
structure HTTPResponse where
  status : Nat
  content : List Nat
deriving Repr, DecidableEq

/-- The Python exceptions the embedded code can raise:
`requests.exceptions.HTTPError` (from `raise_for_status`),
`UnboundLocalError` (reading the loop variable `chunks_with_pages` when
the `for` loop in `process_pdf` ran zero times), and `AttributeError`
(reading `self.doc_collection` / `self.model` before assignment). -/
inductive PyError where
  | httpError
  | unboundLocalError
  | attributeError
deriving Repr, DecidableEq

/-- A chunk record as built by `chunk_text`:
`{"text": ..., "page": ..., "url": ...}`. -/
structure ChunkRecord where
  text : String
  page : Nat
  url : String
deriving Repr, DecidableEq

/-- A search result: a stored record together with its similarity score
(the `score` field read by `query_documents`' sort key). Scores are
modelled as integers. -/
structure ScoredRecord where
  record : ChunkRecord
  score : Int
deriving Repr, DecidableEq

/-- The external collaborators of the pipeline. -/
structure Env where
  /-- `requests.get`: the response the network yields for a URL. -/
  http : String → HTTPResponse
  /-- `fitz.open(stream=bytes).pages`: the page texts parsed out of the
  downloaded bytes, in document order. -/
  fitzPages : List Nat → List String
  /-- `SemanticChunker.create_documents([text])`: the chunk texts the
  splitter produces from one page text. -/
  splitText : String → List String
  /-- The embedding similarity score between a query text and a stored
  record, as computed by the vector index. -/
  sim : String → ChunkRecord → Int
  /-- The stream feeding `random.choices(string.ascii_lowercase, k=7)`:
  the i-th draw's index into the 26-letter alphabet. -/
  draws : Nat → Fin 26

/-- `string.ascii_lowercase`. -/
def asciiLowercase : List Char := "abcdefghijklmnopqrstuvwxyz".data

theorem asciiLowercase_length : asciiLowercase.length = 26 := rfl

/-- The mutable state of a `PDFDocumentHandler` instance. `doc_collection`
and `model` start unset (`None` here, absent attributes in Python);
`inserted` is the contents of the handler's current collection (empty for
a freshly drawn collection name). -/
structure PDFDocumentHandler where
  mongodb_uri : String
  artifact_store_path : String
  doc_collection : Option String
  model : Option String
  inserted : List ChunkRecord
deriving Repr

/-- `PDFDocumentHandler.__init__`: stores the URI and artifact path and
initializes the database and splitter; `doc_collection` and `model` are
not assigned. -/
def initHandler (mongodb_uri artifact_store_path : String) : PDFDocumentHandler :=
  { mongodb_uri := mongodb_uri, artifact_store_path := artifact_store_path,
    doc_collection := none, model := none, inserted := [] }

/-- The identifier of the model built by `initialize_model`. -/
def modelIdentifier : String := "all-MiniLM-L6-v2"

/-- The 7-character collection name drawn by
`random.choices(string.ascii_lowercase, k=7)` in `set_collection_name`. -/
def randomCollectionName (draws : Nat → Fin 26) : String :=
  String.mk ((List.range 7).map fun i =>
    asciiLowercase.get ⟨(draws i).val, (draws i).isLt.trans_eq asciiLowercase_length.symm⟩)

/-- `set_collection_name`: draws a random 7-letter name and points
`self.doc_collection` at that (fresh, hence empty) collection. -/
def set_collection_name (env : Env) (h : PDFDocumentHandler) : PDFDocumentHandler :=
  { h with doc_collection := some (randomCollectionName env.draws), inserted := [] }

/-- The `VectorIndex` declaration built by `add_vector_index` (its
identifier and the listener's select collection, key and model). -/
structure VectorIndexDecl where
  identifier : String
  listenerSelectCollection : String
  listenerKey : String
  listenerModel : String
deriving Repr, DecidableEq

/-- `add_vector_index`: reads `self.doc_collection` and `self.model`
(AttributeError when unset) and declares the index
`VectorIndex(identifier=f'pymongo-docs-\x7bself.model.identifier\x7d', ...)`. -/
def add_vector_index (h : PDFDocumentHandler) : Except PyError VectorIndexDecl :=
  match h.doc_collection, h.model with
  | some c, some m =>
      .ok { identifier := "pymongo-docs-" ++ m, listenerSelectCollection := c,
            listenerKey := "text", listenerModel := m }
  | _, _ => .error .attributeError

/-- `download_pdf`: `requests.get(pdf_url)` then `raise_for_status()`,
which raises `HTTPError` exactly when the status code is 4XX/5XX;
otherwise returns `response.content`. -/
def download_pdf (env : Env) (pdf_url : String) : Except PyError (List Nat) :=
  let response := env.http pdf_url
  if 400 ≤ response.status ∧ response.status < 600 then .error .httpError
  else .ok response.content

/-- `enumerate(doc, start=s)` over page texts, pairing each text with its
1-based page number. -/
def enumFrom (start : Nat) : List String → List (String × Nat)
  | [] => []
  | t :: ts => (t, start) :: enumFrom (start + 1) ts

/-- `extract_text_with_page_numbers_from_url`: downloads the PDF, opens
it from bytes, and collects `(page.get_text(), page_num)` for
`page_num, page in enumerate(doc, start=1)`. -/
def extract_text_with_page_numbers_from_url (env : Env) (pdf_url : String) :
    Except PyError (List (String × Nat)) := do
  let pdf_bytes ← download_pdf env pdf_url
  .ok (enumFrom 1 (env.fitzPages pdf_bytes))

/-- `chunk_text`: for each `(text, page_num)` pair, split `text` with the
semantic splitter and tag every chunk with that page number; then build
the `\x7b"text", "page", "url"\x7d` records, all carrying the one `url`
argument. -/
def chunk_text (env : Env) (all_text_with_markers : List (String × Nat)) (url : String) :
    List ChunkRecord :=
  let chunks_with_pages :=
    all_text_with_markers.flatMap fun tm => (env.splitText tm.1).map fun c => (c, tm.2)
  chunks_with_pages.map fun cp => { text := cp.1, page := cp.2, url := url }

/-- The `for pdf_url in pdf_urls` loop body of `process_pdf`: each
iteration extracts and chunks one URL, rebinding the local variable
`chunks_with_pages`; the value surviving the loop is the LAST iteration's
(`none` when the loop ran zero times). -/
def process_pdf_loop (env : Env) : List String → Except PyError (Option (List ChunkRecord))
  | [] => .ok none
  | pdf_url :: rest => do
    let all_text_with_markers ← extract_text_with_page_numbers_from_url env pdf_url
    let chunks_with_pages := chunk_text env all_text_with_markers pdf_url
    let later ← process_pdf_loop env rest
    match later with
    | none => .ok (some chunks_with_pages)
    | some c => .ok (some c)

/-- `insert_documents`: `insert_many` of the given records into the
current collection. -/
def insert_documents (h : PDFDocumentHandler) (chunks_with_pages : List ChunkRecord) :
    PDFDocumentHandler :=
  { h with inserted := h.inserted ++ chunks_with_pages }

/-- `process_pdf`: set a fresh collection name, assign `self.model`,
add the vector index, run the extraction/chunking loop over all URLs, and
insert `chunks_with_pages` — the loop variable, i.e. only the last URL's
chunks (UnboundLocalError when `pdf_urls` is empty). -/
def process_pdf (env : Env) (h : PDFDocumentHandler) (pdf_urls : List String) :
    Except PyError PDFDocumentHandler := do
  let h1 := set_collection_name env h
  let h2 := { h1 with model := some modelIdentifier }
  let _ ← add_vector_index h2
  let last ← process_pdf_loop env pdf_urls
  match last with
  | none => .error .unboundLocalError
  | some chunks_with_pages => .ok (insert_documents h2 chunks_with_pages)

/-- The comparison Python's `sorted(result, key=lambda r: -r['score'])`
sorts by: non-increasing score. -/
def byScoreDesc (a b : ScoredRecord) : Prop := b.score ≤ a.score

instance : DecidableRel byScoreDesc := fun a b => inferInstanceAs (Decidable (b.score ≤ a.score))

instance : IsTotal ScoredRecord byScoreDesc := ⟨fun a b => le_total b.score a.score⟩

instance : IsTrans ScoredRecord byScoreDesc := ⟨fun _ _ _ h1 h2 => le_trans h2 h1⟩

/-- Modelled from the spec: the vector store's `.like(..., n=n)` query is
an external collaborator (the superduperdb engine, not code of this
repository). Per the spec it scores the stored records against the query
with the bound embedding model and returns up to `n` of them by
descending similarity (k-nearest-neighbor). `List.insertionSort` is a
stable sort, matching the spec's insertion-order tie-breaking. -/
def likeQuery (env : Env) (stored : List ChunkRecord) (search_term : String) (n : Nat) :
    List ScoredRecord :=
  (List.insertionSort byScoreDesc
    (stored.map fun r => { record := r, score := env.sim search_term r })).take n

/-- `query_documents`: reads `self.doc_collection` and `self.model`
(AttributeError when unset), runs the `like(...).find()` query with
`n=num_results`, and returns `sorted(result, key=lambda r: -r['score'])`
(a stable sort by non-increasing score). -/
def query_documents (env : Env) (h : PDFDocumentHandler) (search_term : String)
    (num_results : Nat) : Except PyError (List ScoredRecord) :=
  match h.doc_collection, h.model with
  | some _, some _ =>
      .ok (List.insertionSort byScoreDesc (likeQuery env h.inserted search_term num_results))
  | _, _ => .error .attributeError

/-- `query_documents` called without `num_results`, whose Python default
is `1`. -/
def query_documents_default (env : Env) (h : PDFDocumentHandler) (search_term : String) :
    Except PyError (List ScoredRecord) :=
  query_documents env h search_term 1

/-- `get_relevant_docs`: `process_pdf(pdf_list)` then
`query_documents(search_term)` (default `num_results`); returns the
updated handler state and the results. -/
def get_relevant_docs (env : Env) (h : PDFDocumentHandler) (pdf_list : List String)
    (search_term : String) : Except PyError (PDFDocumentHandler × List ScoredRecord) :=
  match process_pdf env h pdf_list with
  | .error e => .error e
  | .ok h2 =>
    match query_documents_default env h2 search_term with
    | .error e => .error e
    | .ok res => .ok (h2, res)

/-- `get_collection`: returns `self.doc_collection`, an AttributeError
when it was never assigned. -/
def get_collection (h : PDFDocumentHandler) : Except PyError String :=
  match h.doc_collection with
  | some c => .ok c
  | none => .error .attributeError

/-- `get_model`: returns `self.model`, an AttributeError when it was
never assigned. -/
def get_model (h : PDFDocumentHandler) : Except PyError String :=
  match h.model with
  | some m => .ok m
  | none => .error .attributeError

/-! The `ask_llm.py` streamlit glue. -/

/-- Python's `s.split("\n")` on a list of characters: the groups between
newline characters. On empty input it yields `[""]` — a non-empty
(truthy) list. -/
def splitChars : List Char → List (List Char)
  | [] => [[]]
  | c :: cs =>
    match splitChars cs with
    | [] => [[c]]
    | g :: gs => if c = '\n' then [] :: g :: gs else (c :: g) :: gs

/-- `pdf_urls = pdf_urls_input.split("\n")`. -/
def pdf_urls_of_input (pdf_urls_input : String) : List String :=
  (splitChars pdf_urls_input.data).map String.mk

/-- The guard `if pdf_urls and question:` of the streamlit glue: Python
truthiness of the split list and of the question string. `true` means the
glue calls `get_answer_from_pdf` (ingestion is attempted). -/
def ui_runs_query (pdf_urls_input question : String) : Bool :=
  !(pdf_urls_of_input pdf_urls_input).isEmpty && !question.isEmpty

/-! Concrete environments used to evaluate the model on explicit inputs. -/

/-- A random stream that always draws index 0, i.e. the letter 'a'. -/
def drawsZero : Nat → Fin 26 := fun _ => ⟨0, by decide⟩

/-- An environment with two one-page documents: URL "http://a" holds the
byte `[0]` parsing to page text "alpha text", every other URL holds `[1]`
parsing to "beta text"; the splitter keeps each page whole. -/
def envTwoDocs : Env :=
  { http := fun u =>
      if u = "http://a" then { status := 200, content := [0] }
      else { status := 200, content := [1] },
    fitzPages := fun bs => if bs = [0] then ["alpha text"] else ["beta text"],
    splitText := fun t => [t],
    sim := fun _ _ => 0,
    draws := drawsZero }

/-- An environment where every URL fetches one document with the given
page texts, the splitter keeps pages whole, and the score of a stored
record is its text length. -/
def constEnv (pages : List String) : Env :=
  { http := fun _ => { status := 200, content := [0] },
    fitzPages := fun _ => pages,
    splitText := fun t => [t],
    sim := fun _ r => (r.text.length : Int),
    draws := drawsZero }

/-- A handler state whose collection and model are set, as after the
setup phase of `process_pdf`, with collection name "aaaaaaa". -/
def handlerCollA : PDFDocumentHandler :=
  { mongodb_uri := "mongomock://test", artifact_store_path := "./data/",
    doc_collection := some "aaaaaaa", model := some modelIdentifier, inserted := [] }

/-- Like `handlerCollA` but with collection name "zzzzzzz". -/
def handlerCollZ : PDFDocumentHandler :=
  { handlerCollA with doc_collection := some "zzzzzzz" }

/-- C1: `process_pdf` over the two URLs "http://a" and "http://b"
produces, for "http://a", the nonempty chunk list containing the
"alpha text" record, yet the records inserted into the collection are
exactly the single "beta text" record of the last URL: the loop rebinds
`chunks_with_pages` each iteration instead of accumulating, so every
location but the last is extracted, chunked and then dropped. -/
theorem c1_inserts_only_last_url_chunks :
    (process_pdf envTwoDocs (initHandler "mongomock://test" "./data/")
        ["http://a", "http://b"]).map PDFDocumentHandler.inserted =
      .ok [{ text := "beta text", page := 1, url := "http://b" }] ∧
    chunk_text envTwoDocs [("alpha text", 1)] "http://a" =
      [{ text := "alpha text", page := 1, url := "http://a" }] := by
  exact ⟨rfl, rfl⟩

/-- C3 counterexample: two handler states with distinct collection names
get vector indexes with the SAME identifier, and that identifier is not
the claimed `\x7bcollectionId\x7d-\x7bmodelId\x7d` string. -/
theorem c3_index_id_ignores_collection :
    handlerCollA.doc_collection ≠ handlerCollZ.doc_collection ∧
    (add_vector_index handlerCollA).map VectorIndexDecl.identifier =
      (add_vector_index handlerCollZ).map VectorIndexDecl.identifier ∧
    (add_vector_index handlerCollA).map VectorIndexDecl.identifier =
      .ok ("pymongo-docs-" ++ modelIdentifier) ∧
    ("pymongo-docs-" ++ modelIdentifier : String) ≠ "aaaaaaa" ++ "-" ++ modelIdentifier := by
  refine ⟨by decide, rfl, rfl, by decide⟩

/-- C3 amended: the vector-index identifier is `pymongo-docs-` followed by
the model identifier alone; it does not depend on the collection name, so
every run with the same embedding model shares one index identifier. -/
theorem c3_index_identifier_is_model_keyed (uri path c m : String) (ins : List ChunkRecord) :
    (add_vector_index { mongodb_uri := uri, artifact_store_path := path,
                        doc_collection := some c, model := some m, inserted := ins }).map
      VectorIndexDecl.identifier = .ok ("pymongo-docs-" ++ m) := rfl

/-- C4 counterexample: two distinct ingestion runs (different handlers,
different environments) whose random streams happen to draw the same
letters are given the SAME collection name "aaaaaaa": `set_collection_name`
draws 7 random lowercase letters and nothing rules out collisions, so the
identifier is not globally unique. -/
theorem c4_collection_names_can_collide :
    (set_collection_name (constEnv ["doc one"]) (initHandler "m1" "a1")).doc_collection =
      (set_collection_name (constEnv ["doc two"]) (initHandler "m2" "a2")).doc_collection ∧
    (set_collection_name (constEnv ["doc one"]) (initHandler "m1" "a1")).doc_collection =
      some "aaaaaaa" := by
  exact ⟨rfl, rfl⟩

/-- C4 amended: `set_collection_name` always assigns a collection name of
exactly 7 ASCII lowercase letters drawn from the random stream; uniqueness
across runs is only probabilistic, not guaranteed. -/
theorem c4_collection_name_shape (env : Env) (h : PDFDocumentHandler) :
    ∃ name : String, (set_collection_name env h).doc_collection = some name ∧
      name.length = 7 ∧ ∀ c ∈ name.data, c ∈ asciiLowercase := by
  refine ⟨randomCollectionName env.draws, rfl, ?_, ?_⟩
  · simp [randomCollectionName, String.length]
  · intro c hc
    simp only [randomCollectionName, String.mk, List.mem_map] at hc
    obtain ⟨i, _, rfl⟩ := hc
    exact List.get_mem _ _ _

/-- C10: on a freshly constructed handler (no `process_pdf` call yet),
`get_collection`, `get_model` and `query_documents` all fail with
`AttributeError`: `doc_collection` and `model` are only assigned inside
`process_pdf`. -/
theorem c10_fresh_handler_attribute_error (uri path : String) :
    get_collection (initHandler uri path) = .error .attributeError ∧
    get_model (initHandler uri path) = .error .attributeError ∧
    ∀ (env : Env) (q : String) (n : Nat),
      query_documents env (initHandler uri path) q n = .error .attributeError :=
  ⟨rfl, rfl, fun _ _ _ => rfl⟩

/-- An environment whose every fetch yields HTTP 404 with an empty body. -/
def env404 : Env :=
  { http := fun _ => { status := 404, content := [] },
    fitzPages := fun _ => [], splitText := fun t => [t],
    sim := fun _ _ => 0, draws := drawsZero }

/-- An environment whose every fetch yields HTTP 304 (non-2xx but not
4xx/5xx) with body `[7]`. -/
def env304 : Env :=
  { http := fun _ => { status := 304, content := [7] },
    fitzPages := fun _ => [], splitText := fun t => [t],
    sim := fun _ _ => 0, draws := drawsZero }

theorem download_pdf_fails (env : Env) (url : String)
    (hbad : 400 ≤ (env.http url).status ∧ (env.http url).status < 600) :
    download_pdf env url = .error .httpError := by
  unfold download_pdf; rw [if_pos hbad]

theorem download_pdf_succeeds (env : Env) (url : String)
    (hgood : ¬(400 ≤ (env.http url).status ∧ (env.http url).status < 600)) :
    download_pdf env url = .ok (env.http url).content := by
  unfold download_pdf; rw [if_neg hgood]

theorem extract_fails_of_bad_status (env : Env) (url : String)
    (hbad : 400 ≤ (env.http url).status ∧ (env.http url).status < 600) :
    extract_text_with_page_numbers_from_url env url = .error .httpError := by
  unfold extract_text_with_page_numbers_from_url
  rw [download_pdf_fails env url hbad]
  rfl

theorem extract_error_is_http (env : Env) (url : String) (e : PyError)
    (h : extract_text_with_page_numbers_from_url env url = .error e) : e = .httpError := by
  unfold extract_text_with_page_numbers_from_url download_pdf at h
  by_cases hc : 400 ≤ (env.http url).status ∧ (env.http url).status < 600
  · rw [if_pos hc] at h
    cases h
    rfl
  · rw [if_neg hc] at h
    cases h

theorem process_pdf_loop_fails (env : Env) (url : String) (urls : List String)
    (hmem : url ∈ urls)
    (hbad : 400 ≤ (env.http url).status ∧ (env.http url).status < 600) :
    process_pdf_loop env urls = .error .httpError := by
  induction urls with
  | nil => cases hmem
  | cons head rest ih =>
    unfold process_pdf_loop
    rcases List.mem_cons.mp hmem with heq | hmem2
    · subst heq
      rw [extract_fails_of_bad_status env url hbad]
      rfl
    · cases hx : extract_text_with_page_numbers_from_url env head with
      | error e =>
        have he := extract_error_is_http env head e hx
        subst he
        rfl
      | ok markers =>
        rw [ih hmem2]
        rfl

theorem process_pdf_fails (env : Env) (h : PDFDocumentHandler) (url : String)
    (urls : List String) (hmem : url ∈ urls)
    (hbad : 400 ≤ (env.http url).status ∧ (env.http url).status < 600) :
    process_pdf env h urls = .error .httpError := by
  unfold process_pdf
  rw [process_pdf_loop_fails env url urls hmem hbad]
  rfl

/-- C5 counterexample: a fetch answered with HTTP 304 — a non-2xx
status — does NOT fail: `raise_for_status` only raises for 4XX/5XX, so
`download_pdf` returns the response body. -/
theorem c5_status_304_returns_bytes :
    ¬(200 ≤ (env304.http "http://u").status ∧ (env304.http "http://u").status < 300) ∧
    download_pdf env304 "http://u" = .ok [7] :=
  ⟨by decide, rfl⟩

/-- C5 amended: `download_pdf` raises exactly on 4xx/5xx statuses — and
such an error aborts the whole `process_pdf` call for any URL list
containing the failing location — while a 2xx status returns the response
body bytes; statuses outside both ranges (1xx/3xx) also return the body
rather than failing. -/
theorem c5_fetch_status_semantics (env : Env) (hd : PDFDocumentHandler) (url : String)
    (urls : List String) :
    (url ∈ urls → 400 ≤ (env.http url).status → (env.http url).status < 600 →
      download_pdf env url = .error .httpError ∧
      process_pdf env hd urls = .error .httpError) ∧
    (200 ≤ (env.http url).status → (env.http url).status < 300 →
      download_pdf env url = .ok (env.http url).content) := by
  constructor
  · intro hmem h4 h6
    exact ⟨download_pdf_fails env url ⟨h4, h6⟩, process_pdf_fails env hd url urls hmem ⟨h4, h6⟩⟩
  · intro h2 h3
    exact download_pdf_succeeds env url (by omega)

/-- Witness for C5: on the all-404 environment the fetch and the whole
ingestion fail; on the all-200 environment the fetch returns the body. -/
theorem c5_fetch_status_semantics_witness :
    (download_pdf env404 "http://u" = .error .httpError ∧
      process_pdf env404 (initHandler "mongomock://test" "./data/") ["http://u"] =
        .error .httpError) ∧
    download_pdf (constEnv ["page"]) "http://u" = .ok [0] := by
  constructor
  · exact (c5_fetch_status_semantics env404 (initHandler "mongomock://test" "./data/")
      "http://u" ["http://u"]).1 (by decide) (by decide) (by decide)
  · exact (c5_fetch_status_semantics (constEnv ["page"]) (initHandler "mongomock://test" "./data/")
      "http://u" []).2 (by decide) (by decide)

theorem enumFrom_length (s : Nat) (l : List String) : (enumFrom s l).length = l.length := by
  induction l generalizing s with
  | nil => rfl
  | cons t ts ih => simp [enumFrom, ih]

theorem enumFrom_map_snd (s : Nat) (l : List String) :
    (enumFrom s l).map Prod.snd = List.range' s l.length := by
  induction l generalizing s with
  | nil => rfl
  | cons t ts ih => simp [enumFrom, ih, List.range'_succ]

/-- C7: whenever extraction succeeds, it returns one (text, page) pair per
parsed page, and the page numbers are exactly the contiguous ascending
sequence 1, 2, ..., n. -/
theorem c7_pages_contiguous_from_one (env : Env) (url : String) (pairs : List (String × Nat))
    (hok : extract_text_with_page_numbers_from_url env url = .ok pairs) :
    pairs.length = (env.fitzPages (env.http url).content).length ∧
    pairs.map Prod.snd = List.range' 1 pairs.length := by
  unfold extract_text_with_page_numbers_from_url download_pdf at hok
  by_cases hc : 400 ≤ (env.http url).status ∧ (env.http url).status < 600
  · rw [if_pos hc] at hok
    cases hok
  · rw [if_neg hc] at hok
    cases hok
    refine ⟨enumFrom_length 1 _, ?_⟩
    rw [enumFrom_length 1 _]
    exact enumFrom_map_snd 1 _

/-- Witness for C7: a two-page document extracts to two pairs numbered
1 and 2. -/
theorem c7_pages_contiguous_from_one_witness :
    ([("p1", 1), ("p2", 2)] : List (String × Nat)).length =
      ((constEnv ["p1", "p2"]).fitzPages ((constEnv ["p1", "p2"]).http "http://u").content).length ∧
    ([("p1", 1), ("p2", 2)] : List (String × Nat)).map Prod.snd =
      List.range' 1 ([("p1", 1), ("p2", 2)] : List (String × Nat)).length :=
  c7_pages_contiguous_from_one (constEnv ["p1", "p2"]) "http://u" [("p1", 1), ("p2", 2)] rfl

/-- C8: every record produced by `chunk_text` carries the one source URL
and is derived from a single input page: its text is one of the splitter's
chunks of that page's text and its page tag is that page's number, so no
chunk spans more than one page. -/
theorem c8_chunk_single_page (env : Env) (pairs : List (String × Nat)) (url : String)
    (r : ChunkRecord) (hr : r ∈ chunk_text env pairs url) :
    r.url = url ∧ ∃ tp ∈ pairs, r.page = tp.2 ∧ r.text ∈ env.splitText tp.1 := by
  simp only [chunk_text, List.mem_map, List.mem_flatMap] at hr
  obtain ⟨cp, ⟨tp, htp, hcp⟩, rfl⟩ := hr
  obtain ⟨c, hc, rfl⟩ := hcp
  exact ⟨rfl, tp, htp, rfl, hc⟩

/-- Witness for C8: the one chunk of the one-page input is tagged with
page 1 and the supplied URL. -/
theorem c8_chunk_single_page_witness :
    ({ text := "alpha text", page := 1, url := "http://a" } : ChunkRecord).url = "http://a" ∧
    ∃ tp ∈ [("alpha text", 1)],
      ({ text := "alpha text", page := 1, url := "http://a" } : ChunkRecord).page = tp.2 ∧
      ({ text := "alpha text", page := 1, url := "http://a" } : ChunkRecord).text ∈
        envTwoDocs.splitText tp.1 :=
  c8_chunk_single_page envTwoDocs [("alpha text", 1)] "http://a" _ (by decide)

theorem query_documents_ok_shape (env : Env) (h : PDFDocumentHandler) (q : String) (n : Nat)
    (res : List ScoredRecord) (hres : query_documents env h q n = .ok res) :
    res = List.insertionSort byScoreDesc (likeQuery env h.inserted q n) := by
  unfold query_documents at hres
  rcases hcol : h.doc_collection with _ | c <;> rw [hcol] at hres <;>
    rcases hmod : h.model with _ | m <;> rw [hmod] at hres
  · cases hres
  · cases hres
  · cases hres
  · cases hres
    rfl

theorem query_documents_length_le (env : Env) (h : PDFDocumentHandler) (q : String) (n : Nat)
    (res : List ScoredRecord) (hres : query_documents env h q n = .ok res) :
    res.length ≤ n := by
  rw [query_documents_ok_shape env h q n res hres]
  calc (List.insertionSort byScoreDesc (likeQuery env h.inserted q n)).length
      = (likeQuery env h.inserted q n).length := (List.perm_insertionSort _ _).length_eq
    _ ≤ n := by
        unfold likeQuery
        rw [List.length_take]
        exact min_le_left _ _

theorem query_documents_sorted (env : Env) (h : PDFDocumentHandler) (q : String) (n : Nat)
    (res : List ScoredRecord) (hres : query_documents env h q n = .ok res) :
    res.Pairwise byScoreDesc := by
  rw [query_documents_ok_shape env h q n res hres]
  exact List.sorted_insertionSort byScoreDesc _

theorem get_relevant_docs_ok_shape (env : Env) (h h2 : PDFDocumentHandler)
    (urls : List String) (q : String) (res : List ScoredRecord)
    (hrun : get_relevant_docs env h urls q = .ok (h2, res)) :
    process_pdf env h urls = .ok h2 ∧ query_documents_default env h2 q = .ok res := by
  unfold get_relevant_docs at hrun
  split at hrun
  · cases hrun
  · rename_i h2x hp
    split at hrun
    · cases hrun
    · rename_i r hq
      cases hrun
      exact ⟨hp, hq⟩

/-- An environment where the single fetched page splits into five chunks,
scored by text length. -/
def env5chunks : Env :=
  { http := fun _ => { status := 200, content := [0] },
    fitzPages := fun _ => ["all five chunks"],
    splitText := fun _ => ["c1", "c2", "c3", "c4", "c5"],
    sim := fun _ r => (r.text.length : Int),
    draws := drawsZero }

/-- The handler state `process_pdf env5chunks (initHandler ...) ["http://u"]`
produces: collection "aaaaaaa", the MiniLM model, and the five chunk
records inserted. -/
def postHandler5 : PDFDocumentHandler :=
  { mongodb_uri := "mongomock://test", artifact_store_path := "./data/",
    doc_collection := some "aaaaaaa", model := some modelIdentifier,
    inserted := [{ text := "c1", page := 1, url := "http://u" },
                 { text := "c2", page := 1, url := "http://u" },
                 { text := "c3", page := 1, url := "http://u" },
                 { text := "c4", page := 1, url := "http://u" },
                 { text := "c5", page := 1, url := "http://u" }] }

/-- C2 counterexample: an ingest-and-query run that stores five chunks
returns only ONE result — `get_relevant_docs` calls `query_documents`
without `num_results`, whose Python default is 1, not 5 — although an
explicit `num_results=5` query over the same ingested state would return
all five. -/
theorem c2_default_k_not_five :
    (get_relevant_docs env5chunks (initHandler "mongomock://test" "./data/")
        ["http://u"] "q").map (fun p => (p.1.inserted.length, p.2.length)) = .ok (5, 1) ∧
    (query_documents env5chunks postHandler5 "q" 5).map List.length = .ok 5 := by
  exact ⟨rfl, rfl⟩

/-- C2 amended: the similarity search behind `get_relevant_docs` runs
with `num_results = 1` (the Python default of `query_documents`), not 5,
and `get_relevant_docs` offers no way to override it: every successful
run returns at most one result. -/
theorem c2_default_k_is_one (env : Env) (h h2 : PDFDocumentHandler) (urls : List String)
    (q : String) (res : List ScoredRecord)
    (hrun : get_relevant_docs env h urls q = .ok (h2, res)) :
    query_documents env h2 q 1 = .ok res ∧ res.length ≤ 1 := by
  obtain ⟨-, hq⟩ := get_relevant_docs_ok_shape env h h2 urls q res hrun
  exact ⟨hq, query_documents_length_le env h2 q 1 res hq⟩

/-- Witness for C2: the concrete five-chunk run returns the single
highest-ranked (first, on tied scores) chunk. -/
theorem c2_default_k_is_one_witness :
    query_documents env5chunks postHandler5 "q" 1 =
      .ok [{ record := { text := "c1", page := 1, url := "http://u" }, score := 2 }] ∧
    ([{ record := { text := "c1", page := 1, url := "http://u" }, score := 2 }] :
      List ScoredRecord).length ≤ 1 :=
  c2_default_k_is_one env5chunks (initHandler "mongomock://test" "./data/") postHandler5
    ["http://u"] "q"
    [{ record := { text := "c1", page := 1, url := "http://u" }, score := 2 }] rfl

/-- C6: every successful `query_documents` call returns at most
`num_results` results, sorted by non-increasing similarity score. -/
theorem c6_query_documents_topk_sorted (env : Env) (h : PDFDocumentHandler) (q : String)
    (k : Nat) (res : List ScoredRecord)
    (hres : query_documents env h q k = .ok res) :
    res.length ≤ k ∧ res.Pairwise byScoreDesc :=
  ⟨query_documents_length_le env h q k res hres, query_documents_sorted env h q k res hres⟩

/-- A handler holding three chunk records of text lengths 2, 4 and 1. -/
def handlerStocked : PDFDocumentHandler :=
  { handlerCollA with inserted :=
      [{ text := "aa", page := 1, url := "u" },
       { text := "bbbb", page := 1, url := "u" },
       { text := "c", page := 2, url := "u" }] }

/-- Witness for C6: querying the three stocked records with k = 2 returns
the two highest-scored records in descending score order. -/
theorem c6_query_documents_topk_sorted_witness :
    ([{ record := { text := "bbbb", page := 1, url := "u" }, score := 4 },
      { record := { text := "aa", page := 1, url := "u" }, score := 2 }] :
        List ScoredRecord).length ≤ 2 ∧
    ([{ record := { text := "bbbb", page := 1, url := "u" }, score := 4 },
      { record := { text := "aa", page := 1, url := "u" }, score := 2 }] :
        List ScoredRecord).Pairwise byScoreDesc :=
  c6_query_documents_topk_sorted (constEnv ["x"]) handlerStocked "q" 2
    [{ record := { text := "bbbb", page := 1, url := "u" }, score := 4 },
     { record := { text := "aa", page := 1, url := "u" }, score := 2 }] rfl

/-- C9: with the URL text area empty and a nonempty question, the guard
`if pdf_urls and question:` is TRUE — `"".split("\n")` yields the truthy
list `[""]` — so the glue attempts ingestion with the empty-string URL
instead of the no-op the spec requires; only an empty question yields a
no-op. -/
theorem c9_empty_url_input_attempts_ingestion :
    ui_runs_query "" "what?" = true ∧ pdf_urls_of_input "" = [""] ∧
    ∀ s : String, ui_runs_query s "" = false := by
  refine ⟨rfl, rfl, fun s => ?_⟩
  exact Bool.and_false _

end RagSDDB
